import Mathlib

/-!
Verification of the tgsender job engine and QR-auth handshake.

The definitions below are a shallow embedding of the Go source:
* `Contacts` embeds `pkg/contacts/jobs.go` (ImportJob, JobManager) and the
  `Contact` record of `pkg/contacts`.
* `Messages` embeds `pkg/messages/jobs.go` (SendJob, JobStore, JobManager)
  and the send loop of `Sender.SendToContactsWithProgress`.
* `Accounts` embeds `pkg/accounts/qrauth.go` (QRAuthManager).
* `Retry` embeds the flood-wait retry wrappers
  (`Checker.importContactsWithRetry`, `sendMessage`, `resolveUsername`).

Go maps guarded by a mutex become association lists; goroutine interleavings
become explicit sequential transition steps; `time.Now()` and the random job-id
generator become explicit parameters; external Telegram calls become oracle
parameters giving the outcome of each successive call.
-/

namespace Spec2Proof

instance {ε α : Type} [DecidableEq ε] [DecidableEq α] : DecidableEq (Except ε α) :=
  fun x y =>
    match x, y with
    | .ok a, .ok b =>
      if h : a = b then .isTrue (by rw [h]) else .isFalse (by simp [h])
    | .error a, .error b =>
      if h : a = b then .isTrue (by rw [h]) else .isFalse (by simp [h])
    | .ok _, .error _ => .isFalse (fun hc => Except.noConfusion hc)
    | .error _, .ok _ => .isFalse (fun hc => Except.noConfusion hc)

/-! ### Association lists standing for Go maps -/

/-- Lookup in an association list, the model of a Go map read `m[k]`. -/
def lookupA {α : Type} : List (String × α) → String → Option α
  | [], _ => none
  | (k', v) :: t, k => if k' = k then some v else lookupA t k

/-- Remove every binding of key `k`, the model of Go `delete(m, k)`. -/
def eraseA {α : Type} (l : List (String × α)) (k : String) : List (String × α) :=
  l.filter (fun p => p.1 ≠ k)

/-- Overwriting insert, the model of a Go map write `m[k] = v`. -/
def insertA {α : Type} (l : List (String × α)) (k : String) (v : α) : List (String × α) :=
  (k, v) :: eraseA l k

namespace Contacts

/-- `contacts.Contact`, the fields used by the sender and import code. -/
structure Contact where
  id : String
  phone : String
  firstName : String
  lastName : String
  username : String
  telegramID : Int
  accessHash : Int
  isValid : Bool
deriving DecidableEq, Repr

/-- `contacts.JobStatus` (jobs.go). -/
inductive JobStatus where
  | pending
  | running
  | completed
  | failed
deriving DecidableEq, Repr

/-- `contacts.ImportType` (jobs.go). -/
inductive ImportType where
  | chats
  | contacts
deriving DecidableEq, Repr

/-- `contacts.ImportJob` (jobs.go); times are abstract ticks. -/
structure ImportJob where
  id : String
  accountID : String
  importType : ImportType
  status : JobStatus
  progress : Nat
  imported : Nat
  skipped : Nat
  error : String
  proxyURL : String
  startedAt : Nat
  updatedAt : Nat
deriving DecidableEq, Repr

/-- The mutable state of `contacts.JobManager`: the `jobs` map and the
`byAcct` map (account ID -> job ID, for active jobs only). -/
structure JobManagerState where
  jobs : List (String × ImportJob)
  byAcct : List (String × String)
deriving DecidableEq, Repr

/-- `JobManager.startImportWithType` (jobs.go:71-103).  `freshId` stands for
`generateJobID()`, `now` for `time.Now()`.  Returns the new state, the
returned job and the `isNew` flag. -/
def startImportWithType (st : JobManagerState) (accountID _sessionPath proxyURL : String)
    (importType : ImportType) (freshId : String) (now : Nat) :
    JobManagerState × ImportJob × Bool :=
  let existing : Option ImportJob :=
    match lookupA st.byAcct accountID with
    | none => none
    | some jobID =>
      match lookupA st.jobs jobID with
      | none => none
      | some job =>
        if job.status = .pending ∨ job.status = .running then some job else none
  match existing with
  | some job => (st, job, false)
  | none =>
    let job : ImportJob :=
      { id := freshId, accountID := accountID, importType := importType,
        status := .pending, progress := 0, imported := 0, skipped := 0,
        error := "", proxyURL := proxyURL, startedAt := now, updatedAt := now }
    ({ jobs := insertA st.jobs freshId job, byAcct := insertA st.byAcct accountID freshId },
      job, true)

/-- `JobManager.StartImport` (jobs.go:62-64). -/
def StartImport (st : JobManagerState) (accountID sessionPath proxyURL freshId : String)
    (now : Nat) : JobManagerState × ImportJob × Bool :=
  startImportWithType st accountID sessionPath proxyURL .chats freshId now

/-- `JobManager.StartImportContacts` (jobs.go:67-69). -/
def StartImportContacts (st : JobManagerState) (accountID sessionPath proxyURL freshId : String)
    (now : Nat) : JobManagerState × ImportJob × Bool :=
  startImportWithType st accountID sessionPath proxyURL .contacts freshId now

/-- `JobManager.GetJob` (jobs.go:106-118); the Go copy-out is identity here. -/
def GetJob (st : JobManagerState) (jobID : String) : Option ImportJob :=
  lookupA st.jobs jobID

/-- `JobManager.GetJobByAccount` (jobs.go:121-138). -/
def GetJobByAccount (st : JobManagerState) (accountID : String) : Option ImportJob :=
  match lookupA st.byAcct accountID with
  | none => none
  | some jobID => lookupA st.jobs jobID

/-- The first critical section of `JobManager.runImport` (jobs.go:141-145):
mark the job running. -/
def setRunning (st : JobManagerState) (jid : String) (now : Nat) : JobManagerState :=
  match lookupA st.jobs jid with
  | none => st
  | some job =>
    { st with jobs := insertA st.jobs jid ({ job with status := .running, updatedAt := now }) }

/-- A progress-callback critical section of `runImport` (jobs.go:156-172):
update the counters of a job. -/
def progressUpdate (st : JobManagerState) (jid : String)
    (progress imported skipped now : Nat) : JobManagerState :=
  match lookupA st.jobs jid with
  | none => st
  | some job =>
    let job' := { job with
      progress := progress
      imported := imported
      skipped := skipped
      updatedAt := now }
    { st with jobs := insertA st.jobs jid job' }

/-- `contacts.ChatContactsResult` (checker.go). -/
structure ChatContactsResult where
  imported : Nat
  skipped : Nat
  errors : List String
deriving DecidableEq, Repr

/-- The finalizing critical section of `runImport` (jobs.go:175-194): write the
terminal status and delete the account's `byAcct` mapping under the same lock. -/
def finalizeImport (st : JobManagerState) (jid : String)
    (outcome : Except String ChatContactsResult) (now : Nat) : JobManagerState :=
  match lookupA st.jobs jid with
  | none => st
  | some job =>
    let job' :=
      match outcome with
      | .error e => { job with status := .failed, error := e, updatedAt := now }
      | .ok r =>
        { job with
          status := .completed
          imported := r.imported
          skipped := r.skipped
          error := (match r.errors with | [] => job.error | e :: _ => e)
          updatedAt := now }
    { jobs := insertA st.jobs jid job', byAcct := eraseA st.byAcct job.accountID }

/-- The deferred cleanup goroutine of `runImport` (jobs.go:197-202): drop the
job record five minutes after it reached its terminal status. -/
def cleanupJob (st : JobManagerState) (jid : String) : JobManagerState :=
  { st with jobs := eraseA st.jobs jid }

/-- One critical section of `contacts.JobManager`, as a transition relation.
`start` carries the freshness of the generated job id (`generateJobID` draws
8 random bytes); `cleanup` fires only for jobs that already reached a terminal
status, since the cleanup goroutine is scheduled at the end of `runImport`. -/
inductive Step : JobManagerState → JobManagerState → Prop where
  | start (st : JobManagerState) (accountID sessionPath proxyURL : String)
      (importType : ImportType) (freshId : String) (now : Nat)
      (hfresh : lookupA st.jobs freshId = none) :
      Step st (startImportWithType st accountID sessionPath proxyURL importType freshId now).1
  | run (st : JobManagerState) (jid : String) (now : Nat) (job : ImportJob)
      (hj : lookupA st.jobs jid = some job) (hp : job.status = .pending) :
      Step st (setRunning st jid now)
  | report (st : JobManagerState) (jid : String) (progress imported skipped now : Nat) :
      Step st (progressUpdate st jid progress imported skipped now)
  | finalize (st : JobManagerState) (jid : String)
      (outcome : Except String ChatContactsResult) (now : Nat) (job : ImportJob)
      (hj : lookupA st.jobs jid = some job) (hr : job.status = .running) :
      Step st (finalizeImport st jid outcome now)
  | cleanup (st : JobManagerState) (jid : String) (job : ImportJob)
      (hj : lookupA st.jobs jid = some job)
      (ht : job.status = .completed ∨ job.status = .failed) :
      Step st (cleanupJob st jid)

/-- States reachable from the freshly constructed manager (`NewJobManager`). -/
inductive Reachable : JobManagerState → Prop where
  | init : Reachable ⟨[], []⟩
  | step {s s' : JobManagerState} : Reachable s → Step s s' → Reachable s'

/-- Every `byAcct` entry points to a stored job of that account that is still
active (pending or running). -/
def ActiveIndex (st : JobManagerState) : Prop :=
  ∀ a jid, lookupA st.byAcct a = some jid →
    ∃ job, lookupA st.jobs jid = some job ∧ job.accountID = a ∧
      (job.status = .pending ∨ job.status = .running)

/-- Every stored active (pending or running) job is reachable through the
`byAcct` index of its account. -/
def IndexedAll (st : JobManagerState) : Prop :=
  ∀ jid job, lookupA st.jobs jid = some job →
    (job.status = .pending ∨ job.status = .running) →
    lookupA st.byAcct job.accountID = some jid

end Contacts

namespace Messages

/-- `messages.JobStatus` (jobs.go). -/
inductive JobStatus where
  | pending
  | running
  | completed
  | failed
deriving DecidableEq, Repr

/-- `messages.RecipientResult` (sender.go). -/
structure RecipientResult where
  contactID : String
  phone : String
  name : String
  success : Bool
  error : String
deriving DecidableEq, Repr

/-- `messages.SendJob` (jobs.go); times are abstract ticks, Go `int` is `Int`. -/
structure SendJob where
  id : String
  accountID : String
  status : JobStatus
  message : String
  delayMinMS : Int
  delayMaxMS : Int
  total : Nat
  sent : Nat
  failed : Nat
  results : List RecipientResult
  error : String
  startedAt : Nat
  updatedAt : Nat
  contactIDs : List String
  sessionPath : String
deriving DecidableEq, Repr

/-- `SendJob.GetFailedContactIDs` (jobs.go:46-54). -/
def SendJob.GetFailedContactIDs (j : SendJob) : List String :=
  j.results.foldl (fun acc r => if r.success then acc else acc ++ [r.contactID]) []

/-- `messages.JobStore`: the in-memory `jobs` map plus the `jobs.json`
snapshot most recently written by `save` (as a list of jobs). -/
structure JobStore where
  jobs : List (String × SendJob)
  persisted : List SendJob
deriving DecidableEq, Repr

/-- The per-job rewrite inside `JobStore.load` (jobs.go:252-259): a pending or
running job found in storage is reset to failed. -/
def reconcileJob (j : SendJob) : SendJob :=
  if j.status = .running ∨ j.status = .pending then
    { j with status := .failed, error := "interrupted by server restart" }
  else j

/-- `JobStore.load` (jobs.go:237-262): build the jobs map from the stored
snapshot, reconciling non-terminal jobs. -/
def load (stored : List SendJob) : List (String × SendJob) :=
  stored.foldl (fun m j => insertA m (reconcileJob j).id (reconcileJob j)) []

/-- `NewJobStore` after a successful `load`: the file content becomes the
persisted snapshot and the map is the reconciled file content. -/
def loadStore (stored : List SendJob) : JobStore :=
  { jobs := load stored, persisted := stored }

/-- `JobStore.save` (jobs.go:264-277): snapshot the whole map to disk. -/
def save (s : JobStore) : JobStore :=
  { s with persisted := s.jobs.map (·.2) }

/-- `JobStore.Get` (jobs.go:82-98); the Go deep copy is identity here. -/
def Get (s : JobStore) (id : String) : Option SendJob :=
  lookupA s.jobs id

/-- `JobStore.Create` (jobs.go:120-130). `freshId` stands for the
`generateJobID()` drawn when the job arrives without an id. -/
def Create (s : JobStore) (job : SendJob) (freshId : String) : JobStore :=
  let j := if job.id = "" then { job with id := freshId } else job
  save { s with jobs := insertA s.jobs j.id j }

/-- `JobStore.UpdateProgress` (jobs.go:146-156): in-memory only, no save. -/
def UpdateProgress (s : JobStore) (jobID : String) (sent failed : Nat)
    (results : List RecipientResult) (now : Nat) : JobStore :=
  match lookupA s.jobs jobID with
  | none => s
  | some job =>
    let job' := { job with
      sent := sent
      failed := failed
      results := results
      updatedAt := now }
    { s with jobs := insertA s.jobs jobID job' }

/-- `JobManager.RetryFailed` (jobs.go:324-360): the store transition plus the
returned job or error.  `freshId` stands for `generateJobID()`, `now` for
`time.Now()`. -/
def RetryFailed (s : JobStore) (jobID : String) (freshId : String) (now : Nat) :
    JobStore × Except String SendJob :=
  match Get s jobID with
  | none => (s, .error "job not found")
  | some oldJob =>
    let failedIDs := oldJob.GetFailedContactIDs
    if failedIDs = [] then (s, .error "no failed contacts to retry")
    else
      let job : SendJob :=
        { id := freshId, accountID := oldJob.accountID, status := .pending,
          message := oldJob.message, delayMinMS := oldJob.delayMinMS,
          delayMaxMS := oldJob.delayMaxMS, total := failedIDs.length,
          sent := 0, failed := 0, results := [], error := "",
          startedAt := now, updatedAt := now, contactIDs := failedIDs,
          sessionPath := oldJob.sessionPath }
      (Create s job freshId, .ok job)

/-! #### The send loop of `Sender.SendToContactsWithProgress`

The loop body is embedded with two oracles: `tmpl i` is the outcome of
`processMessageTemplate` (composed with the optional AI rewrite, which never
fails the contact) for the `i`-th contact, and `send i` is the outcome of
`sendMessage` for the `i`-th contact (`none` = delivered, `some e` = error
`e`).  `sendLog` records the loop indices at which `sendMessage` was actually
invoked, so that "the message is sent once" is a statement about the trace. -/

/-- `formatName` (sender.go). -/
def formatName (firstName lastName : String) : String :=
  let name := (firstName ++ " " ++ lastName).trim
  if name = "" then "Unknown" else name

/-- The result skeleton built at the top of the loop body. -/
def baseResult (c : Contacts.Contact) : RecipientResult :=
  { contactID := c.id, phone := c.phone, name := formatName c.firstName c.lastName,
    success := false, error := "" }

/-- The result recorded for a repeated telegram ID. -/
def dupResult (c : Contacts.Contact) : RecipientResult :=
  { baseResult c with success := true, error := "duplicate, skipped" }

/-- The result recorded for a first-occurrence contact. -/
def freshResult (tmpl : Nat → Except String String) (send : Nat → Option String)
    (i : Nat) (c : Contacts.Contact) : RecipientResult :=
  match tmpl i with
  | .error e => { baseResult c with success := false, error := "template error: " ++ e }
  | .ok _ =>
    match send i with
    | some e => { baseResult c with success := false, error := e }
    | none => { baseResult c with success := true }

/-- The loop state: the `sent` de-duplication map, the accumulated results and
counters, and the trace of indices at which a send was attempted. -/
structure SendLoopState where
  sentIDs : List Int
  results : List RecipientResult
  successful : Nat
  failed : Nat
  sendLog : List Nat
deriving DecidableEq, Repr

/-- The state at loop entry. -/
def initLoopState : SendLoopState :=
  { sentIDs := [], results := [], successful := 0, failed := 0, sendLog := [] }

/-- One iteration of the loop body of `SendToContactsWithProgress`
(vite.config.ts embedded Go source, lines 654-757). -/
def processContact (tmpl : Nat → Except String String) (send : Nat → Option String)
    (i : Nat) (c : Contacts.Contact) (st : SendLoopState) : SendLoopState :=
  if st.sentIDs.contains c.telegramID then
    { st with results := st.results ++ [dupResult c] }
  else
    let st1 := { st with sentIDs := st.sentIDs ++ [c.telegramID] }
    match tmpl i with
    | .error _ =>
      { st1 with
        results := st1.results ++ [freshResult tmpl send i c]
        failed := st1.failed + 1 }
    | .ok _ =>
      let st2 := { st1 with sendLog := st1.sendLog ++ [i] }
      match send i with
      | some _ =>
        { st2 with
          results := st2.results ++ [freshResult tmpl send i c]
          failed := st2.failed + 1 }
      | none =>
        { st2 with
          results := st2.results ++ [freshResult tmpl send i c]
          successful := st2.successful + 1 }

/-- The whole `for i, contact := range contactsToSend` loop, starting at
index `i`. -/
def runSendLoopFrom (tmpl : Nat → Except String String) (send : Nat → Option String) :
    Nat → List Contacts.Contact → SendLoopState → SendLoopState
  | _, [], st => st
  | i, c :: rest, st => runSendLoopFrom tmpl send (i + 1) rest (processContact tmpl send i c st)

/-- The loop run from the start. -/
def runSendLoop (tmpl : Nat → Except String String) (send : Nat → Option String)
    (cs : List Contacts.Contact) : SendLoopState :=
  runSendLoopFrom tmpl send 0 cs initLoopState

/-- The `contactsToSend` resolution at the top of
`SendToContactsWithProgress`: look every requested id up in the contact store
and keep the valid ones, in request order. -/
def resolveContacts (store : List (String × Contacts.Contact))
    (contactIDs : List String) : List Contacts.Contact :=
  contactIDs.filterMap fun cid =>
    match lookupA store cid with
    | none => none
    | some c => if c.isValid then some c else none

/-- `messages.SendResult` (sender.go). -/
structure SendResult where
  total : Nat
  successful : Nat
  failed : Nat
  results : List RecipientResult
deriving DecidableEq, Repr

/-- `Sender.SendToContactsWithProgress` (entry guards plus the loop); returns
the result and the trace of send attempts.  The session-file existence check
and the Telegram client connection are external I/O and are elided; the
`onProgress` callback has no effect on the loop state and is elided too. -/
def SendToContactsWithProgress (store : List (String × Contacts.Contact))
    (contactIDs : List String) (messageText : String)
    (tmpl : Nat → Except String String) (send : Nat → Option String) :
    Except String (SendResult × List Nat) :=
  if contactIDs = [] then
    .ok ({ total := 0, successful := 0, failed := 0, results := [] }, [])
  else if messageText = "" then .error "message text is required"
  else
    let cs := resolveContacts store contactIDs
    if cs = [] then .error "no valid contacts found"
    else
      let fin := runSendLoop tmpl send cs
      .ok ({ total := cs.length, successful := fin.successful, failed := fin.failed,
             results := fin.results }, fin.sendLog)

/-- `∃ k < j` with the same telegram ID among the first `j` contacts. -/
def seenIn : List Contacts.Contact → Nat → Int → Bool
  | _, 0, _ => false
  | [], _ + 1, _ => false
  | c :: rest, j + 1, tid => c.telegramID == tid || seenIn rest j tid

end Messages

namespace Accounts

/-- `accounts.QRAuthState` (qrauth.go); `account` holds the created account's
id, times are abstract ticks. -/
structure QRAuthState where
  token : String
  status : String
  qrURL : String
  error : String
  account : Option String
  expiresAt : Nat
deriving DecidableEq, Repr

/-- `accounts.qrSession`: the state plus whether `cancel()` has been invoked
and whether the one-slot `passwordCh` buffer is occupied. -/
structure QRSession where
  state : QRAuthState
  cancelled : Bool
  passwordSlot : Bool
deriving DecidableEq, Repr

/-- The `sessions` map of `QRAuthManager`. -/
abbrev SessionMap := List (String × QRSession)

/-- `QRAuthManager.GetStatus` (qrauth.go:130-149): lazily expire any session
whose own expiry has passed, unless it is in `success` or
`password_required`; return a snapshot. -/
def GetStatus (m : SessionMap) (token : String) (now : Nat) :
    SessionMap × Option QRAuthState :=
  match lookupA m token with
  | none => (m, none)
  | some s =>
    if s.state.expiresAt < now ∧ s.state.status ≠ "success" ∧
        s.state.status ≠ "password_required" then
      let s' := { s with state := { s.state with status := "expired" }, cancelled := true }
      (insertA m token s', some s'.state)
    else (m, some s.state)

/-- `QRAuthManager.SubmitPassword` (qrauth.go:152-173): deliver the 2FA
secret through the one-slot channel. -/
def SubmitPassword (m : SessionMap) (token _password : String) :
    SessionMap × Except String Unit :=
  match lookupA m token with
  | none => (m, .error "session not found")
  | some s =>
    if s.state.status ≠ "password_required" then (m, .error "password not required")
    else if s.passwordSlot then (m, .error "password channel full")
    else (insertA m token { s with passwordSlot := true }, .ok ())

/-- Outcome of `AuthCheckPassword` for a submitted secret. -/
inductive PasswordCheck where
  | accepted (userId : String)
  | invalidHash
  | otherErr (msg : String)
deriving DecidableEq, Repr

/-- The event `handle2FA` blocks on after requesting the password:
a password arriving on the channel (with the outcome of the SRP computation
and of `AuthCheckPassword`), the 5-minute timeout, or context cancellation. -/
inductive TwoFAEvent where
  | password (srpOk : Bool) (check : PasswordCheck)
  | timeout
  | ctxDone
deriving DecidableEq, Repr

/-- The state write at the top of `handle2FA` (qrauth.go:380-383): demand the
password and extend the expiry by five minutes. -/
def handle2FAEnter (st : QRAuthState) (now : Nat) : QRAuthState :=
  { st with status := "password_required", expiresAt := now + 300 }

/-- The `select` body of `handle2FA` (qrauth.go:388-471): how one event
rewrites the session, and the error the function returns.  Receiving from
`passwordCh` empties the one-slot buffer. -/
def handle2FAOnEvent (s : QRSession) (ev : TwoFAEvent) : QRSession × Except String Unit :=
  match ev with
  | .password srpOk check =>
    let s1 := { s with passwordSlot := false }
    if srpOk = false then
      let st' := { s1.state with status := "error", error := "Failed to process password" }
      ({ s1 with state := st' }, .error "compute SRP")
    else
      match check with
      | .invalidHash =>
        let st' := { s1.state with status := "error", error := "Invalid password" }
        ({ s1 with state := st' }, .error "invalid password")
      | .otherErr m => (s1, .error ("check password: " ++ m))
      | .accepted userId =>
        let st' := { s1.state with status := "success", account := some userId }
        ({ s1 with state := st' }, .ok ())
  | .timeout =>
    let st' := { s.state with status := "expired", error := "Password input timed out" }
    ({ s with state := st' }, .error "password timeout")
  | .ctxDone => (s, .error "context cancelled")

end Accounts

namespace Retry

/-- Outcome of one Telegram API invocation: success, a flood-wait signal
carrying a wait duration, or any other error. -/
inductive TgResult where
  | ok
  | flood (wait : Nat)
  | err (msg : String)
deriving DecidableEq, Repr

/-- The error string carried by a failed invocation. -/
def TgResult.errMsg : TgResult → String
  | .ok => ""
  | .flood _ => "rpc error code 420: FLOOD_WAIT"
  | .err m => m

/-- Model of the collaborator `tgerr.FloodWait(ctx, err)`: if `err` is a
flood-wait signal, sleep for the signalled duration respecting the context
deadline and report `(true, none)`; a cancelled context aborts the wait with
`(false, ctx.Err())`; any other error comes back as `(false, err)`.  The
context is a `deadline` together with the time `elapsed` so far; the third
component is the new elapsed time. -/
def FloodWait (deadline elapsed : Nat) (r : TgResult) : Bool × Option String × Nat :=
  match r with
  | .flood d =>
    if elapsed + d ≤ deadline then (true, none, elapsed + d)
    else (false, some "context deadline exceeded", elapsed)
  | .err m => (false, some m, elapsed)
  | .ok => (false, none, elapsed)

/-- Result of running a retry wrapper: how often the wrapped operation was
invoked, what was returned, and the time spent waiting. -/
structure RetryOutcome where
  attempts : Nat
  result : Except String Unit
  elapsed : Nat
deriving DecidableEq, Repr

/-- `Checker.importContactsWithRetry` (checker.go): invoke
`ContactsImportContacts`, and on a flood-wait signal sleep and recurse.  The
oracle list gives the outcome of each successive invocation. -/
def importContactsWithRetry (deadline : Nat) : Nat → List TgResult → RetryOutcome
  | elapsed, [] => ⟨0, .error "no oracle result", elapsed⟩
  | elapsed, r :: rest =>
    match r with
    | .ok => ⟨1, .ok (), elapsed⟩
    | _ =>
      match FloodWait deadline elapsed r with
      | (true, _, e') =>
        let o := importContactsWithRetry deadline e' rest
        ⟨o.attempts + 1, o.result, o.elapsed⟩
      | (false, some fe, e') => ⟨1, .error fe, e'⟩
      | (false, none, e') => ⟨1, .error (TgResult.errMsg r), e'⟩

/-- `pat` is a prefix of `s` (character lists). -/
def startsWithL : List Char → List Char → Bool
  | [], _ => true
  | _ :: _, [] => false
  | a :: pa, b :: pb => a == b && startsWithL pa pb

/-- `pat` occurs somewhere in `s` (character lists). -/
def containsSubAux (pat : List Char) : List Char → Bool
  | [] => startsWithL pat []
  | b :: rest => startsWithL pat (b :: rest) || containsSubAux pat rest

/-- `strings.Contains`. -/
def strContains (s pat : String) : Bool :=
  containsSubAux pat.data s.data

/-- `sendMessage` (sender.go): send, fall back to username resolution when the
peer id is invalid and a username is known, and recurse through flood waits.
The oracle list gives the outcome of each successive `Text` call;
`resolveRes` abstracts the outcome of `resolveUsername`. -/
def sendMessage (deadline : Nat) :
    Nat → String → Except String Unit → List TgResult → RetryOutcome
  | elapsed, _, _, [] => ⟨0, .error "no oracle result", elapsed⟩
  | elapsed, username, resolveRes, r :: rest =>
    match r with
    | .ok => ⟨1, .ok (), elapsed⟩
    | _ =>
      if strContains (TgResult.errMsg r) "PEER_ID_INVALID" && !(username == "") then
        match resolveRes with
        | .error re =>
          ⟨1, .error ("peer invalid and failed to resolve username: " ++ re), elapsed⟩
        | .ok _ =>
          let o := sendMessage deadline elapsed "" resolveRes rest
          ⟨o.attempts + 1, o.result, o.elapsed⟩
      else
        match FloodWait deadline elapsed r with
        | (true, _, e') =>
          let o := sendMessage deadline e' username resolveRes rest
          ⟨o.attempts + 1, o.result, o.elapsed⟩
        | (false, some fe, e') => ⟨1, .error fe, e'⟩
        | (false, none, e') => ⟨1, .error (TgResult.errMsg r), e'⟩

end Retry

/-! ### Association-list lemmas -/

theorem lookupA_eraseA_same {α : Type} (l : List (String × α)) (k : String) :
    lookupA (eraseA l k) k = none := by
  induction l with
  | nil => rfl
  | cons p t ih =>
    simp only [eraseA, List.filter_cons] at *
    by_cases h : p.1 = k
    · simpa [h] using ih
    · simpa [h, lookupA] using ih

theorem lookupA_eraseA_diff {α : Type} (l : List (String × α)) {k k' : String}
    (h : k' ≠ k) : lookupA (eraseA l k) k' = lookupA l k' := by
  induction l with
  | nil => rfl
  | cons p t ih =>
    simp only [eraseA, List.filter_cons] at *
    by_cases hp : p.1 = k
    · have hkk : ¬k = k' := fun hk => h hk.symm
      simpa [hp, lookupA, hkk] using ih
    · by_cases hq : p.1 = k'
      · simp [hp, lookupA, hq, h]
      · simpa [hp, lookupA, hq] using ih

theorem lookupA_insertA_same {α : Type} (l : List (String × α)) (k : String) (v : α) :
    lookupA (insertA l k v) k = some v := by
  simp [insertA, lookupA]

theorem lookupA_insertA_diff {α : Type} (l : List (String × α)) {k k' : String} (v : α)
    (h : k' ≠ k) : lookupA (insertA l k v) k' = lookupA l k' := by
  have hne : k ≠ k' := fun hk => h hk.symm
  simp [insertA, lookupA, hne, lookupA_eraseA_diff l h]

/-! ### C9 — UpdateProgress on an absent job id is a silent no-op -/

/-- C9: `JobStore.UpdateProgress` called with a job id not present in the
store returns without error, creates no entry for that id, and leaves every
existing job and the persisted snapshot unchanged: the store state is
literally the same. -/
theorem c9_updateProgress_absent_id_noop (s : Messages.JobStore) (jobID : String)
    (sent failed : Nat) (results : List Messages.RecipientResult) (now : Nat)
    (h : lookupA s.jobs jobID = none) :
    Messages.UpdateProgress s jobID sent failed results now = s := by
  unfold Messages.UpdateProgress
  rw [h]

/-- Witness for C9 at a concrete one-job store and an absent id. -/
theorem c9_witness :
    Messages.UpdateProgress
      ⟨[("a1", { id := "a1", accountID := "acc", status := .running, message := "m",
                 delayMinMS := 0, delayMaxMS := 0, total := 1, sent := 0, failed := 0,
                 results := [], error := "", startedAt := 0, updatedAt := 0,
                 contactIDs := ["c"], sessionPath := "p" })], []⟩
      "missing" 3 4 [] 9
    = ⟨[("a1", { id := "a1", accountID := "acc", status := .running, message := "m",
                 delayMinMS := 0, delayMaxMS := 0, total := 1, sent := 0, failed := 0,
                 results := [], error := "", startedAt := 0, updatedAt := 0,
                 contactIDs := ["c"], sessionPath := "p" })], []⟩ :=
  c9_updateProgress_absent_id_noop _ "missing" 3 4 [] 9 (by decide)

/-! ### C3 / C4 — RetryFailed -/

theorem getFailed_foldl_aux (rs : List Messages.RecipientResult)
    (acc : List String) :
    rs.foldl (fun acc r => if r.success then acc else acc ++ [r.contactID]) acc
      = acc ++ (rs.filter (fun r => !r.success)).map (fun r => r.contactID) := by
  induction rs generalizing acc with
  | nil => simp
  | cons r rs ih =>
    by_cases h : r.success
    · simp [List.foldl_cons, h, ih]
    · simp only [List.foldl_cons, if_neg h, ih, List.filter_cons,
        Bool.not_eq_true', eq_false_of_ne_true h]
      simp [h]

/-- `GetFailedContactIDs` collects, in recorded order, exactly the contact
ids of the results whose success flag is false. -/
theorem getFailed_eq_filter (j : Messages.SendJob) :
    j.GetFailedContactIDs
      = (j.results.filter (fun r => !r.success)).map (fun r => r.contactID) := by
  simpa using getFailed_foldl_aux j.results []

/-- C3: `RetryFailed` on a job whose recorded results contain zero failures
returns the "no failed contacts to retry" error and leaves the store — jobs
map and persisted snapshot — exactly as before. -/
theorem c3_retryFailed_zero_failures_noop (s : Messages.JobStore)
    (jobID freshId : String) (now : Nat) (oldJob : Messages.SendJob)
    (hget : lookupA s.jobs jobID = some oldJob)
    (hok : ∀ r ∈ oldJob.results, r.success = true) :
    Messages.RetryFailed s jobID freshId now
      = (s, .error "no failed contacts to retry") := by
  have hnil : oldJob.GetFailedContactIDs = [] := by
    rw [getFailed_eq_filter]
    have : oldJob.results.filter (fun r => !r.success) = [] := by
      rw [List.filter_eq_nil_iff]
      intro r hr
      simp [hok r hr]
    simp [this]
  simp [Messages.RetryFailed, Messages.Get, hget, hnil]

/-- Witness for C3 at a concrete store holding one fully-successful job. -/
theorem c3_witness :
    Messages.RetryFailed
      ⟨[("a1", { id := "a1", accountID := "acc", status := .completed, message := "m",
                 delayMinMS := 1, delayMaxMS := 2, total := 1, sent := 1, failed := 0,
                 results := [{ contactID := "c1", phone := "+1", name := "n",
                               success := true, error := "" }],
                 error := "", startedAt := 0, updatedAt := 0,
                 contactIDs := ["c1"], sessionPath := "p" })], []⟩
      "a1" "b2" 9
    = (⟨[("a1", { id := "a1", accountID := "acc", status := .completed, message := "m",
                  delayMinMS := 1, delayMaxMS := 2, total := 1, sent := 1, failed := 0,
                  results := [{ contactID := "c1", phone := "+1", name := "n",
                                success := true, error := "" }],
                  error := "", startedAt := 0, updatedAt := 0,
                  contactIDs := ["c1"], sessionPath := "p" })], []⟩,
       .error "no failed contacts to retry") :=
  c3_retryFailed_zero_failures_noop
    ⟨[("a1", { id := "a1", accountID := "acc", status := .completed, message := "m",
               delayMinMS := 1, delayMaxMS := 2, total := 1, sent := 1, failed := 0,
               results := [{ contactID := "c1", phone := "+1", name := "n",
                             success := true, error := "" }],
               error := "", startedAt := 0, updatedAt := 0,
               contactIDs := ["c1"], sessionPath := "p" })], []⟩
    "a1" "b2" 9
    { id := "a1", accountID := "acc", status := .completed, message := "m",
      delayMinMS := 1, delayMaxMS := 2, total := 1, sent := 1, failed := 0,
      results := [{ contactID := "c1", phone := "+1", name := "n",
                    success := true, error := "" }],
      error := "", startedAt := 0, updatedAt := 0,
      contactIDs := ["c1"], sessionPath := "p" }
    (by decide) (by decide)

/-- C4: `RetryFailed` on a job with a non-empty failed subset creates and
returns a new pending job whose target list is exactly the failed subset of
the original results in recorded order, whose `total` is its size, and whose
message, delay bounds, account id and session path equal the original's; the
new job is stored under the fresh id. -/
theorem c4_retryFailed_retries_failed_subset (s : Messages.JobStore)
    (jobID freshId : String) (now : Nat) (oldJob : Messages.SendJob)
    (hget : lookupA s.jobs jobID = some oldJob)
    (hfail : oldJob.results.filter (fun r => !r.success) ≠ []) :
    ∃ st' newJob,
      Messages.RetryFailed s jobID freshId now = (st', .ok newJob)
      ∧ newJob.status = .pending
      ∧ newJob.contactIDs
          = (oldJob.results.filter (fun r => !r.success)).map (fun r => r.contactID)
      ∧ newJob.total = newJob.contactIDs.length
      ∧ newJob.message = oldJob.message
      ∧ newJob.delayMinMS = oldJob.delayMinMS
      ∧ newJob.delayMaxMS = oldJob.delayMaxMS
      ∧ newJob.accountID = oldJob.accountID
      ∧ newJob.sessionPath = oldJob.sessionPath
      ∧ newJob.id = freshId
      ∧ newJob.results = []
      ∧ lookupA st'.jobs freshId = some newJob := by
  have hne : oldJob.GetFailedContactIDs ≠ [] := by
    rw [getFailed_eq_filter]
    simpa using hfail
  unfold Messages.RetryFailed
  simp only [Messages.Get, hget, if_neg hne]
  refine ⟨_, _, rfl, rfl, getFailed_eq_filter oldJob, rfl, rfl, rfl, rfl, rfl, rfl,
    rfl, rfl, ?_⟩
  simp only [Messages.Create, Messages.save]
  split
  · exact lookupA_insertA_same _ _ _
  · exact lookupA_insertA_same _ _ _

/-- Witness for C4: retrying a job with one failed and one successful target
yields a pending job targeting exactly the failed contact. -/
theorem c4_witness :
    ∃ st' newJob,
      Messages.RetryFailed
        ⟨[("a1", { id := "a1", accountID := "acc", status := .completed, message := "m",
                   delayMinMS := 1, delayMaxMS := 2, total := 2, sent := 1, failed := 1,
                   results := [{ contactID := "c1", phone := "+1", name := "n",
                                 success := true, error := "" },
                               { contactID := "c2", phone := "+2", name := "n2",
                                 success := false, error := "boom" }],
                   error := "", startedAt := 0, updatedAt := 0,
                   contactIDs := ["c1", "c2"], sessionPath := "p" })], []⟩
        "a1" "b2" 9 = (st', .ok newJob)
      ∧ newJob.status = .pending
      ∧ newJob.contactIDs = ["c2"]
      ∧ newJob.total = newJob.contactIDs.length
      ∧ newJob.message = "m"
      ∧ newJob.delayMinMS = 1
      ∧ newJob.delayMaxMS = 2
      ∧ newJob.accountID = "acc"
      ∧ newJob.sessionPath = "p"
      ∧ newJob.id = "b2"
      ∧ newJob.results = []
      ∧ lookupA st'.jobs "b2" = some newJob := by
  obtain ⟨st', newJob, h⟩ :=
    c4_retryFailed_retries_failed_subset
      ⟨[("a1", { id := "a1", accountID := "acc", status := .completed, message := "m",
                 delayMinMS := 1, delayMaxMS := 2, total := 2, sent := 1, failed := 1,
                 results := [{ contactID := "c1", phone := "+1", name := "n",
                               success := true, error := "" },
                             { contactID := "c2", phone := "+2", name := "n2",
                               success := false, error := "boom" }],
                 error := "", startedAt := 0, updatedAt := 0,
                 contactIDs := ["c1", "c2"], sessionPath := "p" })], []⟩
      "a1" "b2" 9
      { id := "a1", accountID := "acc", status := .completed, message := "m",
        delayMinMS := 1, delayMaxMS := 2, total := 2, sent := 1, failed := 1,
        results := [{ contactID := "c1", phone := "+1", name := "n",
                      success := true, error := "" },
                    { contactID := "c2", phone := "+2", name := "n2",
                      success := false, error := "boom" }],
        error := "", startedAt := 0, updatedAt := 0,
        contactIDs := ["c1", "c2"], sessionPath := "p" }
      (by decide) (by decide)
  exact ⟨st', newJob, by simpa using h⟩

/-! ### C1 — load-time reconciliation -/

theorem reconcileJob_id (j : Messages.SendJob) :
    (Messages.reconcileJob j).id = j.id := by
  unfold Messages.reconcileJob
  split <;> rfl

theorem load_lookup_mem_aux (stored : List Messages.SendJob)
    (m : List (String × Messages.SendJob)) (id : String) (j' : Messages.SendJob)
    (h : lookupA (stored.foldl
        (fun m j => insertA m (Messages.reconcileJob j).id (Messages.reconcileJob j)) m)
        id = some j') :
    (∃ j, j ∈ stored ∧ j.id = id ∧ j' = Messages.reconcileJob j)
      ∨ lookupA m id = some j' := by
  induction stored generalizing m with
  | nil => exact Or.inr h
  | cons x rest ih =>
    rcases ih _ h with ⟨j, hj, hid, hrec⟩ | hm
    · exact Or.inl ⟨j, List.mem_cons_of_mem _ hj, hid, hrec⟩
    · by_cases hx : (Messages.reconcileJob x).id = id
      · rw [← hx, lookupA_insertA_same] at hm
        exact Or.inl ⟨x, List.mem_cons_self _ _, by rw [← reconcileJob_id, hx],
          (Option.some.injEq _ _ ▸ hm.symm : _)⟩
      · rw [lookupA_insertA_diff _ _ (fun he => hx he.symm)] at hm
        exact Or.inr hm

theorem load_lookup_skip_aux (stored : List Messages.SendJob)
    (m : List (String × Messages.SendJob)) (id : String)
    (hnone : ∀ j ∈ stored, j.id ≠ id) :
    lookupA (stored.foldl
        (fun m j => insertA m (Messages.reconcileJob j).id (Messages.reconcileJob j)) m)
        id = lookupA m id := by
  induction stored generalizing m with
  | nil => rfl
  | cons x rest ih =>
    rw [List.foldl_cons, ih _ (fun j hj => hnone j (List.mem_cons_of_mem _ hj))]
    refine lookupA_insertA_diff _ _ ?_
    rw [reconcileJob_id]
    exact fun he => hnone x (List.mem_cons_self _ _) he.symm

theorem load_lookup_found_aux (stored : List Messages.SendJob)
    (m : List (String × Messages.SendJob)) (j : Messages.SendJob)
    (hmem : j ∈ stored) (hnd : (stored.map Messages.SendJob.id).Nodup) :
    lookupA (stored.foldl
        (fun m j => insertA m (Messages.reconcileJob j).id (Messages.reconcileJob j)) m)
        j.id = some (Messages.reconcileJob j) := by
  induction stored generalizing m with
  | nil => cases hmem
  | cons x rest ih =>
    rw [List.map_cons] at hnd
    obtain ⟨hx, hrestnd⟩ := List.nodup_cons.mp hnd
    rcases List.mem_cons.mp hmem with rfl | hrest
    · rw [List.foldl_cons]
      have hskip : ∀ y ∈ rest, y.id ≠ j.id := by
        intro y hy he
        exact hx (he ▸ List.mem_map_of_mem Messages.SendJob.id hy)
      rw [load_lookup_skip_aux rest _ j.id hskip, reconcileJob_id,
        lookupA_insertA_same]
    · rw [List.foldl_cons]
      exact ih _ hrest hrestnd

/-- C1 counterexample: a job persisted as running is loaded as failed with
the error string "interrupted by server restart", which is not the string
"interrupted by restart" stated by the claim. -/
theorem c1_counterexample :
    (lookupA (Messages.load
      [{ id := "j1", accountID := "acc", status := .running, message := "m",
         delayMinMS := 0, delayMaxMS := 0, total := 1, sent := 0, failed := 0,
         results := [], error := "", startedAt := 0, updatedAt := 0,
         contactIDs := ["c1"], sessionPath := "p" }]) "j1").map Messages.SendJob.error
      = some "interrupted by server restart"
    ∧ ("interrupted by server restart" : String) ≠ "interrupted by restart" := by
  exact ⟨by decide, by decide⟩

/-- C1 (amended): `load` rewrites every stored pending or running job to
failed with the deterministic, non-empty error string
"interrupted by server restart" before it becomes visible, and loads stored
completed or failed jobs unchanged; every visible job is the reconciliation
of a stored one, and (for distinct stored ids) every stored job is visible. -/
theorem c1_load_reconciles :
    (∀ (stored : List Messages.SendJob) (id : String) (j' : Messages.SendJob),
      lookupA (Messages.load stored) id = some j' →
      ∃ j, j ∈ stored ∧ j.id = id ∧ j' = Messages.reconcileJob j)
    ∧ (∀ j : Messages.SendJob, (j.status = .pending ∨ j.status = .running) →
        (Messages.reconcileJob j).status = .failed
        ∧ (Messages.reconcileJob j).error = "interrupted by server restart"
        ∧ (Messages.reconcileJob j).error ≠ "")
    ∧ (∀ j : Messages.SendJob, (j.status = .completed ∨ j.status = .failed) →
        Messages.reconcileJob j = j)
    ∧ (∀ (stored : List Messages.SendJob) (j : Messages.SendJob), j ∈ stored →
        (stored.map Messages.SendJob.id).Nodup →
        lookupA (Messages.load stored) j.id = some (Messages.reconcileJob j)) := by
  refine ⟨?_, ?_, ?_, ?_⟩
  · intro stored id j' h
    exact (load_lookup_mem_aux stored [] id j' h).resolve_right (by simp [lookupA])
  · intro j hj
    have hc : j.status = .running ∨ j.status = .pending :=
      hj.elim (fun h => Or.inr h) (fun h => Or.inl h)
    unfold Messages.reconcileJob
    rw [if_pos hc]
    have hne : ("interrupted by server restart" : String) ≠ "" := by decide
    exact ⟨rfl, rfl, hne⟩
  · intro j hj
    unfold Messages.reconcileJob
    rcases hj with h | h <;> simp [h]
  · intro stored j hmem hnd
    exact load_lookup_found_aux stored [] j hmem hnd

/-- Witness for the amended C1: a concrete running job is reconciled to
failed with the "interrupted by server restart" error, a concrete completed
job is loaded unchanged, and the reconciled job is visible in the loaded
map. -/
theorem c1_witness :
    ((Messages.reconcileJob
        { id := "j1", accountID := "acc", status := .running, message := "m",
          delayMinMS := 0, delayMaxMS := 0, total := 1, sent := 0, failed := 0,
          results := [], error := "", startedAt := 0, updatedAt := 0,
          contactIDs := ["c1"], sessionPath := "p" }).status = .failed
      ∧ (Messages.reconcileJob
          { id := "j1", accountID := "acc", status := .running, message := "m",
            delayMinMS := 0, delayMaxMS := 0, total := 1, sent := 0, failed := 0,
            results := [], error := "", startedAt := 0, updatedAt := 0,
            contactIDs := ["c1"], sessionPath := "p" }).error
          = "interrupted by server restart"
      ∧ (Messages.reconcileJob
          { id := "j1", accountID := "acc", status := .running, message := "m",
            delayMinMS := 0, delayMaxMS := 0, total := 1, sent := 0, failed := 0,
            results := [], error := "", startedAt := 0, updatedAt := 0,
            contactIDs := ["c1"], sessionPath := "p" }).error ≠ "")
    ∧ Messages.reconcileJob
        { id := "j2", accountID := "acc", status := .completed, message := "m",
          delayMinMS := 0, delayMaxMS := 0, total := 1, sent := 1, failed := 0,
          results := [], error := "", startedAt := 0, updatedAt := 0,
          contactIDs := ["c1"], sessionPath := "p" }
      = { id := "j2", accountID := "acc", status := .completed, message := "m",
          delayMinMS := 0, delayMaxMS := 0, total := 1, sent := 1, failed := 0,
          results := [], error := "", startedAt := 0, updatedAt := 0,
          contactIDs := ["c1"], sessionPath := "p" }
    ∧ lookupA (Messages.load
        [{ id := "j1", accountID := "acc", status := .running, message := "m",
           delayMinMS := 0, delayMaxMS := 0, total := 1, sent := 0, failed := 0,
           results := [], error := "", startedAt := 0, updatedAt := 0,
           contactIDs := ["c1"], sessionPath := "p" }]) "j1"
      = some (Messages.reconcileJob
          { id := "j1", accountID := "acc", status := .running, message := "m",
            delayMinMS := 0, delayMaxMS := 0, total := 1, sent := 0, failed := 0,
            results := [], error := "", startedAt := 0, updatedAt := 0,
            contactIDs := ["c1"], sessionPath := "p" }) :=
  ⟨c1_load_reconciles.2.1
      { id := "j1", accountID := "acc", status := .running, message := "m",
        delayMinMS := 0, delayMaxMS := 0, total := 1, sent := 0, failed := 0,
        results := [], error := "", startedAt := 0, updatedAt := 0,
        contactIDs := ["c1"], sessionPath := "p" } (Or.inr rfl),
   c1_load_reconciles.2.2.1
      { id := "j2", accountID := "acc", status := .completed, message := "m",
        delayMinMS := 0, delayMaxMS := 0, total := 1, sent := 1, failed := 0,
        results := [], error := "", startedAt := 0, updatedAt := 0,
        contactIDs := ["c1"], sessionPath := "p" } (Or.inl rfl),
   c1_load_reconciles.2.2.2
      [{ id := "j1", accountID := "acc", status := .running, message := "m",
         delayMinMS := 0, delayMaxMS := 0, total := 1, sent := 0, failed := 0,
         results := [], error := "", startedAt := 0, updatedAt := 0,
         contactIDs := ["c1"], sessionPath := "p" }]
      { id := "j1", accountID := "acc", status := .running, message := "m",
        delayMinMS := 0, delayMaxMS := 0, total := 1, sent := 0, failed := 0,
        results := [], error := "", startedAt := 0, updatedAt := 0,
        contactIDs := ["c1"], sessionPath := "p" }
      (by decide) (by decide)⟩

/-! ### C10 — finalizing an import clears the active-job mapping -/

theorem inv_init : Contacts.ActiveIndex ⟨[], []⟩ := by
  intro a jid h
  simp [lookupA] at h

theorem inv_insert_pending (st : Contacts.JobManagerState) (a fid : String)
    (job : Contacts.ImportJob) (hInv : Contacts.ActiveIndex st)
    (hfresh : lookupA st.jobs fid = none)
    (hacc : job.accountID = a) (hst : job.status = .pending) :
    Contacts.ActiveIndex ⟨insertA st.jobs fid job, insertA st.byAcct a fid⟩ := by
  intro a' jid' h
  by_cases ha : a' = a
  · subst ha
    rw [lookupA_insertA_same] at h
    cases h
    exact ⟨job, lookupA_insertA_same _ _ _, hacc, Or.inl hst⟩
  · rw [lookupA_insertA_diff _ _ ha] at h
    obtain ⟨job0, hj0, hacc0, hact0⟩ := hInv a' jid' h
    have hne : jid' ≠ fid := by
      intro he
      rw [he, hfresh] at hj0
      cases hj0
    exact ⟨job0, by rw [lookupA_insertA_diff _ _ hne]; exact hj0, hacc0, hact0⟩

theorem inv_step {s s' : Contacts.JobManagerState}
    (hInv : Contacts.ActiveIndex s) (hstep : Contacts.Step s s') :
    Contacts.ActiveIndex s' := by
  cases hstep with
  | start accountID sessionPath proxyURL ty freshId now hfresh =>
    cases hb : lookupA s.byAcct accountID with
    | none =>
      simp only [Contacts.startImportWithType, hb]
      exact inv_insert_pending s accountID freshId _ hInv hfresh rfl rfl
    | some jid0 =>
      cases hj : lookupA s.jobs jid0 with
      | none =>
        simp only [Contacts.startImportWithType, hb, hj]
        exact inv_insert_pending s accountID freshId _ hInv hfresh rfl rfl
      | some job0 =>
        by_cases hact : job0.status = .pending ∨ job0.status = .running
        · simpa only [Contacts.startImportWithType, hb, hj, if_pos hact] using hInv
        · simp only [Contacts.startImportWithType, hb, hj, if_neg hact]
          exact inv_insert_pending s accountID freshId _ hInv hfresh rfl rfl
  | run jid now job hj hp =>
    unfold Contacts.setRunning
    rw [hj]
    intro a' jid' h
    obtain ⟨job0, hj0, hacc0, hact0⟩ := hInv a' jid' h
    by_cases he : jid' = jid
    · subst he
      rw [hj0] at hj
      cases hj
      exact ⟨_, lookupA_insertA_same _ _ _, hacc0, Or.inr rfl⟩
    · exact ⟨job0, by rw [lookupA_insertA_diff _ _ he]; exact hj0, hacc0, hact0⟩
  | report jid progress imported skipped now =>
    unfold Contacts.progressUpdate
    cases hj : lookupA s.jobs jid with
    | none => exact hInv
    | some job =>
      intro a' jid' h
      obtain ⟨job0, hj0, hacc0, hact0⟩ := hInv a' jid' h
      by_cases he : jid' = jid
      · subst he
        rw [hj0] at hj
        cases hj
        exact ⟨_, lookupA_insertA_same _ _ _, hacc0, hact0⟩
      · exact ⟨job0, by rw [lookupA_insertA_diff _ _ he]; exact hj0, hacc0, hact0⟩
  | finalize jid outcome now job hj hr =>
    unfold Contacts.finalizeImport
    rw [hj]
    intro a' jid' h
    by_cases ha : a' = job.accountID
    · rw [ha, lookupA_eraseA_same] at h
      cases h
    · rw [lookupA_eraseA_diff _ ha] at h
      obtain ⟨job0, hj0, hacc0, hact0⟩ := hInv a' jid' h
      have hne : jid' ≠ jid := by
        intro he
        rw [he, hj] at hj0
        cases hj0
        exact ha hacc0.symm
      exact ⟨job0, by rw [lookupA_insertA_diff _ _ hne]; exact hj0, hacc0, hact0⟩
  | cleanup jid job hj ht =>
    unfold Contacts.cleanupJob
    intro a' jid' h
    obtain ⟨job0, hj0, hacc0, hact0⟩ := hInv a' jid' h
    have hne : jid' ≠ jid := by
      intro he
      rw [he, hj] at hj0
      cases hj0
      rcases hact0 with h0 | h0 <;> rcases ht with h1 | h1 <;> rw [h0] at h1 <;> cases h1
    exact ⟨job0, by rw [lookupA_eraseA_diff _ hne]; exact hj0, hacc0, hact0⟩

theorem inv_reachable {s : Contacts.JobManagerState} (h : Contacts.Reachable s) :
    Contacts.ActiveIndex s := by
  induction h with
  | init => exact inv_init
  | step hr hs ih => exact inv_step ih hs

theorem inv2_step {s s' : Contacts.JobManagerState}
    (hA : Contacts.ActiveIndex s) (hI : Contacts.IndexedAll s)
    (hstep : Contacts.Step s s') : Contacts.IndexedAll s' := by
  cases hstep with
  | start accountID sessionPath proxyURL ty freshId now hfresh =>
    cases hb : lookupA s.byAcct accountID with
    | none =>
      simp only [Contacts.startImportWithType, hb]
      intro jid job hj hact
      by_cases he : jid = freshId
      · subst he
        rw [lookupA_insertA_same] at hj
        cases hj
        exact lookupA_insertA_same _ _ _
      · rw [lookupA_insertA_diff _ _ he] at hj
        have hidx := hI jid job hj hact
        have hne : job.accountID ≠ accountID := by
          intro hacc
          rw [hacc, hb] at hidx
          cases hidx
        rw [lookupA_insertA_diff _ _ hne]
        exact hidx
    | some jid0 =>
      cases hjj : lookupA s.jobs jid0 with
      | none =>
        obtain ⟨job0, hj0, _, _⟩ := hA accountID jid0 hb
        rw [hjj] at hj0
        cases hj0
      | some job0 =>
        by_cases hact0 : job0.status = .pending ∨ job0.status = .running
        · simpa only [Contacts.startImportWithType, hb, hjj, if_pos hact0] using hI
        · obtain ⟨job1, hj1, _, hact1⟩ := hA accountID jid0 hb
          rw [hjj] at hj1
          cases hj1
          exact absurd hact1 hact0
  | run jid now job hj hp =>
    unfold Contacts.setRunning
    rw [hj]
    intro jid' job' hj' hact'
    by_cases he : jid' = jid
    · subst he
      rw [lookupA_insertA_same] at hj'
      cases hj'
      exact hI _ job hj (Or.inl hp)
    · rw [lookupA_insertA_diff _ _ he] at hj'
      exact hI jid' job' hj' hact'
  | report jid progress imported skipped now =>
    unfold Contacts.progressUpdate
    cases hj : lookupA s.jobs jid with
    | none => exact hI
    | some job =>
      intro jid' job' hj' hact'
      by_cases he : jid' = jid
      · subst he
        rw [lookupA_insertA_same] at hj'
        cases hj'
        exact hI _ job hj hact'
      · rw [lookupA_insertA_diff _ _ he] at hj'
        exact hI jid' job' hj' hact'
  | finalize jid outcome now job hj hr =>
    unfold Contacts.finalizeImport
    rw [hj]
    intro jid' job' hj' hact'
    by_cases he : jid' = jid
    · subst he
      rw [lookupA_insertA_same] at hj'
      exfalso
      cases outcome with
      | error e =>
        cases hj'
        rcases hact' with h | h <;> cases h
      | ok r =>
        cases hj'
        rcases hact' with h | h <;> cases h
    · rw [lookupA_insertA_diff _ _ he] at hj'
      have hidx := hI jid' job' hj' hact'
      have hidx2 := hI jid job hj (Or.inr hr)
      have hne : job'.accountID ≠ job.accountID := by
        intro hacc
        rw [hacc, hidx2] at hidx
        cases hidx
        exact he rfl
      rw [lookupA_eraseA_diff _ hne]
      exact hidx
  | cleanup jid job hj ht =>
    unfold Contacts.cleanupJob
    intro jid' job' hj' hact'
    have he : jid' ≠ jid := by
      intro heq
      rw [heq, lookupA_eraseA_same] at hj'
      cases hj'
    rw [lookupA_eraseA_diff _ he] at hj'
    exact hI jid' job' hj' hact'

theorem invs_reachable {s : Contacts.JobManagerState} (h : Contacts.Reachable s) :
    Contacts.ActiveIndex s ∧ Contacts.IndexedAll s := by
  induction h with
  | init =>
    refine ⟨inv_init, fun jid job hj _ => ?_⟩
    simp [lookupA] at hj
  | step hr hs ih => exact ⟨inv_step ih.1 hs, inv2_step ih.1 ih.2 hs⟩

/-! ### C2 — single-active-job-per-account enqueue is idempotent -/

/-- C2: while an active (pending or running) import job for the account is
registered, `startImportWithType` — and hence `StartImport` and
`StartImportContacts` — returns that job with `isNew = false` and changes
nothing; in particular, in any reachable manager state, a `StartJob` call for
an account that has a stored active job of the same kind returns exactly that
job with `isNew = false`. -/
theorem c2_start_active_job_idempotent :
    (∀ (st : Contacts.JobManagerState) (accountID sessionPath proxyURL : String)
        (ty : Contacts.ImportType) (freshId : String) (now : Nat)
        (jid : String) (job : Contacts.ImportJob),
      lookupA st.byAcct accountID = some jid →
      lookupA st.jobs jid = some job →
      job.importType = ty →
      (job.status = .pending ∨ job.status = .running) →
      Contacts.startImportWithType st accountID sessionPath proxyURL ty freshId now
        = (st, job, false))
    ∧ (∀ (st : Contacts.JobManagerState) (accountID sessionPath proxyURL freshId : String)
        (now : Nat) (jid : String) (job : Contacts.ImportJob),
      lookupA st.byAcct accountID = some jid →
      lookupA st.jobs jid = some job →
      (job.status = .pending ∨ job.status = .running) →
      Contacts.StartImport st accountID sessionPath proxyURL freshId now = (st, job, false)
      ∧ Contacts.StartImportContacts st accountID sessionPath proxyURL freshId now
        = (st, job, false))
    ∧ (∀ st : Contacts.JobManagerState, Contacts.Reachable st →
      ∀ (accountID sessionPath proxyURL : String) (ty : Contacts.ImportType)
        (freshId : String) (now : Nat) (jid : String) (job : Contacts.ImportJob),
      lookupA st.jobs jid = some job →
      job.accountID = accountID →
      job.importType = ty →
      (job.status = .pending ∨ job.status = .running) →
      Contacts.startImportWithType st accountID sessionPath proxyURL ty freshId now
        = (st, job, false)) := by
  have key : ∀ (st : Contacts.JobManagerState) (accountID sessionPath proxyURL : String)
      (ty : Contacts.ImportType) (freshId : String) (now : Nat)
      (jid : String) (job : Contacts.ImportJob),
      lookupA st.byAcct accountID = some jid →
      lookupA st.jobs jid = some job →
      (job.status = .pending ∨ job.status = .running) →
      Contacts.startImportWithType st accountID sessionPath proxyURL ty freshId now
        = (st, job, false) := by
    intro st a sp pu ty fid now jid job h1 h2 h4
    simp [Contacts.startImportWithType, h1, h2, h4]
  refine ⟨fun st a sp pu ty fid now jid job h1 h2 _ h4 =>
      key st a sp pu ty fid now jid job h1 h2 h4,
    fun st a sp pu fid now jid job h1 h2 h4 =>
      ⟨key st a sp pu .chats fid now jid job h1 h2 h4,
       key st a sp pu .contacts fid now jid job h1 h2 h4⟩,
    ?_⟩
  intro st hreach a sp pu ty fid now jid job hj hacc _ hact
  have hidx := (invs_reachable hreach).2 jid job hj hact
  rw [hacc] at hidx
  exact key st a sp pu ty fid now jid job hidx hj hact

/-- Witness for C2: a second `StartImport` while a pending job is registered
returns the very same job and `isNew = false`, also via the reachable-state
formulation. -/
theorem c2_witness :
    Contacts.StartImport
      ⟨[("j1", { id := "j1", accountID := "acc", importType := .chats, status := .pending,
                 progress := 0, imported := 0, skipped := 0, error := "", proxyURL := "",
                 startedAt := 0, updatedAt := 0 })], [("acc", "j1")]⟩
      "acc" "sess" "proxy" "j2" 5
    = (⟨[("j1", { id := "j1", accountID := "acc", importType := .chats, status := .pending,
                  progress := 0, imported := 0, skipped := 0, error := "", proxyURL := "",
                  startedAt := 0, updatedAt := 0 })], [("acc", "j1")]⟩,
       { id := "j1", accountID := "acc", importType := .chats, status := .pending,
         progress := 0, imported := 0, skipped := 0, error := "", proxyURL := "",
         startedAt := 0, updatedAt := 0 }, false) :=
  (c2_start_active_job_idempotent.2.1 _ "acc" "sess" "proxy" "j2" 5 "j1" _
    (by decide) (by decide) (Or.inl rfl)).1

/-- C10: finalizing a contact-import job writes the terminal status and
removes the account-to-active-job mapping in the same critical section:
immediately afterwards `GetJobByAccount` is not-found while `GetJob` still
returns the terminal job; in every reachable manager state the job returned
by `GetJobByAccount` is pending or running; and a subsequent
`startImportWithType` for the finalized job's account creates a new pending
job carrying the freshly generated id, with `isNew = true`. -/
theorem c10_finalize_clears_active_mapping :
    (∀ (st : Contacts.JobManagerState) (jid : String) (job : Contacts.ImportJob)
        (outcome : Except String Contacts.ChatContactsResult) (now : Nat),
      lookupA st.jobs jid = some job →
      Contacts.GetJobByAccount (Contacts.finalizeImport st jid outcome now) job.accountID
          = none
        ∧ ∃ j', Contacts.GetJob (Contacts.finalizeImport st jid outcome now) jid = some j'
            ∧ (j'.status = .completed ∨ j'.status = .failed))
    ∧ (∀ st : Contacts.JobManagerState, Contacts.Reachable st →
        ∀ (a : String) (j : Contacts.ImportJob), Contacts.GetJobByAccount st a = some j →
          (j.status = .pending ∨ j.status = .running))
    ∧ (∀ (st : Contacts.JobManagerState) (jid : String) (job : Contacts.ImportJob)
        (outcome : Except String Contacts.ChatContactsResult) (now : Nat)
        (sessionPath proxyURL : String) (ty : Contacts.ImportType) (freshId : String)
        (now2 : Nat),
      lookupA st.jobs jid = some job →
      (Contacts.startImportWithType (Contacts.finalizeImport st jid outcome now)
          job.accountID sessionPath proxyURL ty freshId now2).2.2 = true
        ∧ (Contacts.startImportWithType (Contacts.finalizeImport st jid outcome now)
            job.accountID sessionPath proxyURL ty freshId now2).2.1.id = freshId
        ∧ (Contacts.startImportWithType (Contacts.finalizeImport st jid outcome now)
            job.accountID sessionPath proxyURL ty freshId now2).2.1.status = .pending) := by
  refine ⟨?_, ?_, ?_⟩
  · intro st jid job outcome now hj
    constructor
    · unfold Contacts.finalizeImport
      rw [hj]
      simp [Contacts.GetJobByAccount, lookupA_eraseA_same]
    · unfold Contacts.finalizeImport Contacts.GetJob
      rw [hj]
      refine ⟨_, lookupA_insertA_same _ _ _, ?_⟩
      cases outcome with
      | error e => exact Or.inr rfl
      | ok r => exact Or.inl rfl
  · intro st hreach a j h
    unfold Contacts.GetJobByAccount at h
    cases hb : lookupA st.byAcct a with
    | none => rw [hb] at h; cases h
    | some jid =>
      rw [hb] at h
      dsimp only at h
      obtain ⟨job0, hj0, _, hact0⟩ := inv_reachable hreach a jid hb
      rw [hj0] at h
      cases h
      exact hact0
  · intro st jid job outcome now sessionPath proxyURL ty freshId now2 hj
    have hb : lookupA (Contacts.finalizeImport st jid outcome now).byAcct job.accountID
        = none := by
      unfold Contacts.finalizeImport
      rw [hj]
      exact lookupA_eraseA_same _ _
    refine ⟨?_, ?_, ?_⟩ <;> simp [Contacts.startImportWithType, hb]

/-- Witness for C10: finalizing a concrete running job hides it from
`GetJobByAccount` but not from `GetJob`; in a concretely reached state the
job visible through `GetJobByAccount` is pending. -/
theorem c10_witness :
    (Contacts.GetJobByAccount
        (Contacts.finalizeImport
          ⟨[("j1", { id := "j1", accountID := "acc", importType := .chats,
                     status := .running, progress := 0, imported := 0, skipped := 0,
                     error := "", proxyURL := "", startedAt := 0, updatedAt := 0 })],
           [("acc", "j1")]⟩ "j1" (.ok ⟨2, 1, []⟩) 7) "acc" = none
      ∧ ∃ j', Contacts.GetJob
          (Contacts.finalizeImport
            ⟨[("j1", { id := "j1", accountID := "acc", importType := .chats,
                       status := .running, progress := 0, imported := 0, skipped := 0,
                       error := "", proxyURL := "", startedAt := 0, updatedAt := 0 })],
             [("acc", "j1")]⟩ "j1" (.ok ⟨2, 1, []⟩) 7) "j1" = some j'
          ∧ (j'.status = .completed ∨ j'.status = .failed))
    ∧ (({ id := "j1", accountID := "acc", importType := .chats, status := .pending,
          progress := 0, imported := 0, skipped := 0, error := "", proxyURL := "p",
          startedAt := 0, updatedAt := 0 } : Contacts.ImportJob).status = .pending
        ∨ ({ id := "j1", accountID := "acc", importType := .chats, status := .pending,
             progress := 0, imported := 0, skipped := 0, error := "", proxyURL := "p",
             startedAt := 0, updatedAt := 0 } : Contacts.ImportJob).status = .running) := by
  constructor
  · exact c10_finalize_clears_active_mapping.1
      ⟨[("j1", { id := "j1", accountID := "acc", importType := .chats,
                 status := .running, progress := 0, imported := 0, skipped := 0,
                 error := "", proxyURL := "", startedAt := 0, updatedAt := 0 })],
       [("acc", "j1")]⟩ "j1"
      { id := "j1", accountID := "acc", importType := .chats,
        status := .running, progress := 0, imported := 0, skipped := 0,
        error := "", proxyURL := "", startedAt := 0, updatedAt := 0 }
      (.ok ⟨2, 1, []⟩) 7 (by decide)
  · exact c10_finalize_clears_active_mapping.2.1
      (Contacts.startImportWithType ⟨[], []⟩ "acc" "s" "p" .chats "j1" 0).1
      (Contacts.Reachable.step Contacts.Reachable.init
        (Contacts.Step.start ⟨[], []⟩ "acc" "s" "p" .chats "j1" 0 rfl))
      "acc"
      { id := "j1", accountID := "acc", importType := .chats, status := .pending,
        progress := 0, imported := 0, skipped := 0, error := "", proxyURL := "p",
        startedAt := 0, updatedAt := 0 }
      (by decide)

/-! ### C6 — a rejected second-factor proof -/

/-- C6 counterexample: a session in `password_required` that receives an
invalid password is moved to status `error` — not back to
`password_required` as the claim states. -/
theorem c6_counterexample :
    (Accounts.handle2FAOnEvent
        ⟨⟨"t", "password_required", "", "", none, 100⟩, false, true⟩
        (.password true .invalidHash)).1.state.status ≠ "password_required" := by
  decide

/-- C6 (amended): a rejected second-factor proof (`PASSWORD_HASH_INVALID`)
sets the session status to `error` with the error message "Invalid password"
and terminates the handshake with an "invalid password" failure; a subsequent
`SubmitPassword` for a session in status `error` is rejected with
"password not required" and changes nothing. -/
theorem c6_invalid_password_terminates :
    (∀ s : Accounts.QRSession,
      s.state.status = "password_required" →
      (Accounts.handle2FAOnEvent s (.password true .invalidHash)).1.state.status = "error"
        ∧ (Accounts.handle2FAOnEvent s (.password true .invalidHash)).1.state.error
            = "Invalid password"
        ∧ (Accounts.handle2FAOnEvent s (.password true .invalidHash)).2
            = .error "invalid password")
    ∧ (∀ (m : Accounts.SessionMap) (token password : String) (s : Accounts.QRSession),
      lookupA m token = some s → s.state.status = "error" →
      Accounts.SubmitPassword m token password = (m, .error "password not required")) := by
  constructor
  · intro s _
    exact ⟨rfl, rfl, rfl⟩
  · intro m token password s hs herr
    unfold Accounts.SubmitPassword
    rw [hs]
    dsimp only
    have hne : s.state.status ≠ "password_required" := by
      rw [herr]
      decide
    rw [if_pos hne]

/-- Witness for C6 at a concrete session and one-session registry. -/
theorem c6_witness :
    ((Accounts.handle2FAOnEvent
        ⟨⟨"t", "password_required", "", "", none, 100⟩, false, true⟩
        (.password true .invalidHash)).1.state.status = "error"
      ∧ (Accounts.handle2FAOnEvent
          ⟨⟨"t", "password_required", "", "", none, 100⟩, false, true⟩
          (.password true .invalidHash)).1.state.error = "Invalid password"
      ∧ (Accounts.handle2FAOnEvent
          ⟨⟨"t", "password_required", "", "", none, 100⟩, false, true⟩
          (.password true .invalidHash)).2 = .error "invalid password")
    ∧ Accounts.SubmitPassword
        [("t", ⟨⟨"t", "error", "", "Invalid password", none, 100⟩, false, false⟩)]
        "t" "hunter2"
      = ([("t", ⟨⟨"t", "error", "", "Invalid password", none, 100⟩, false, false⟩)],
         .error "password not required") :=
  ⟨c6_invalid_password_terminates.1
      ⟨⟨"t", "password_required", "", "", none, 100⟩, false, true⟩ rfl,
   c6_invalid_password_terminates.2
      [("t", ⟨⟨"t", "error", "", "Invalid password", none, 100⟩, false, false⟩)]
      "t" "hunter2"
      ⟨⟨"t", "error", "", "Invalid password", none, 100⟩, false, false⟩
      (by decide) rfl⟩

/-! ### C7 — GetStatus lazy expiry -/

/-- C7 counterexample: a session already in the terminal status `error`
whose expiry has passed is rewritten to `expired` by `GetStatus` — the claim
states it would be returned with its status unchanged. -/
theorem c7_counterexample :
    ((Accounts.GetStatus
        [("t", ⟨⟨"t", "error", "", "boom", none, 0⟩, false, false⟩)] "t" 1).2
      = some ⟨"t", "expired", "", "boom", none, 0⟩)
    ∧ ("expired" : String) ≠ "error" := by
  exact ⟨by decide, by decide⟩

/-- C7 (amended): `GetStatus` on a registered session flips the status to
`expired` and cancels the background task exactly when the session's expiry
has passed and its status is neither `success` nor `password_required` —
this includes sessions already in `error` or `expired`; otherwise the
session is returned unchanged; an unknown token is not-found. -/
theorem c7_getStatus_lazy_expiry :
    (∀ (m : Accounts.SessionMap) (token : String) (now : Nat),
      lookupA m token = none → Accounts.GetStatus m token now = (m, none))
    ∧ (∀ (m : Accounts.SessionMap) (token : String) (now : Nat) (s : Accounts.QRSession),
      lookupA m token = some s →
      s.state.expiresAt < now → s.state.status ≠ "success" →
      s.state.status ≠ "password_required" →
      Accounts.GetStatus m token now
        = (insertA m token
            { s with state := { s.state with status := "expired" }, cancelled := true },
           some { s.state with status := "expired" }))
    ∧ (∀ (m : Accounts.SessionMap) (token : String) (now : Nat) (s : Accounts.QRSession),
      lookupA m token = some s →
      ¬(s.state.expiresAt < now ∧ s.state.status ≠ "success" ∧
          s.state.status ≠ "password_required") →
      Accounts.GetStatus m token now = (m, some s.state)) := by
  refine ⟨?_, ?_, ?_⟩
  · intro m token now h
    unfold Accounts.GetStatus
    rw [h]
  · intro m token now s hs h1 h2 h3
    unfold Accounts.GetStatus
    rw [hs]
    dsimp only
    rw [if_pos ⟨h1, h2, h3⟩]
  · intro m token now s hs hneg
    unfold Accounts.GetStatus
    rw [hs]
    dsimp only
    rw [if_neg hneg]

/-- Witness for C7: an expired `scanning` session is flipped to `expired`
and its task cancelled; a not-yet-expired one is returned unchanged; an
unknown token is not-found. -/
theorem c7_witness :
    Accounts.GetStatus [] "t" 5 = ([], none)
    ∧ Accounts.GetStatus
        [("t", ⟨⟨"t", "scanning", "qr", "", none, 3⟩, false, false⟩)] "t" 5
      = (insertA [("t", ⟨⟨"t", "scanning", "qr", "", none, 3⟩, false, false⟩)] "t"
          ⟨⟨"t", "expired", "qr", "", none, 3⟩, true, false⟩,
         some ⟨"t", "expired", "qr", "", none, 3⟩)
    ∧ Accounts.GetStatus
        [("t", ⟨⟨"t", "scanning", "qr", "", none, 9⟩, false, false⟩)] "t" 5
      = ([("t", ⟨⟨"t", "scanning", "qr", "", none, 9⟩, false, false⟩)],
         some ⟨"t", "scanning", "qr", "", none, 9⟩) :=
  ⟨c7_getStatus_lazy_expiry.1 [] "t" 5 (by decide),
   c7_getStatus_lazy_expiry.2.1
      [("t", ⟨⟨"t", "scanning", "qr", "", none, 3⟩, false, false⟩)] "t" 5
      ⟨⟨"t", "scanning", "qr", "", none, 3⟩, false, false⟩
      (by decide) (by decide) (by decide) (by decide),
   c7_getStatus_lazy_expiry.2.2
      [("t", ⟨⟨"t", "scanning", "qr", "", none, 9⟩, false, false⟩)] "t" 5
      ⟨⟨"t", "scanning", "qr", "", none, 9⟩, false, false⟩
      (by decide) (by decide)⟩

/-! ### C8 — the flood-wait retry wrappers -/

/-- C8 counterexample: a non-rate-limit `PEER_ID_INVALID` error with a known
username does not propagate unchanged out of `sendMessage` — the wrapper
instead runs the username-resolution fallback and returns a wrapped
resolution error. -/
theorem c8_counterexample :
    (Retry.sendMessage 100 0 "u" (.error "USERNAME_NOT_OCCUPIED")
        [.err "PEER_ID_INVALID"]).result
      = .error "peer invalid and failed to resolve username: USERNAME_NOT_OCCUPIED"
    ∧ (Except.error "peer invalid and failed to resolve username: USERNAME_NOT_OCCUPIED"
        : Except String Unit) ≠ .error "PEER_ID_INVALID"
    ∧ (Retry.sendMessage 100 0 "u" (.ok ()) [.err "PEER_ID_INVALID", .ok]).attempts = 2 := by
  refine ⟨by decide, by decide, by decide⟩

/-- C8 (amended): for both wrappers, two flood-wait signals with waits `w1`,
`w2` followed by success — with the waits fitting in the context budget —
give exactly 3 invocations, the final success, and `w1 + w2` spent waiting;
a context cancelled during the wait aborts with the cancellation error,
never success; a non-rate-limit error propagates unchanged after a single
invocation, except that `sendMessage`, on a `PEER_ID_INVALID` error with a
non-empty username, falls back to username resolution: a failed resolution
returns a wrapped resolution error, a successful one re-sends to the
resolved peer.  With an empty username every non-rate-limit error —
`PEER_ID_INVALID` included — propagates unchanged after a single
invocation (last conjunct). -/
theorem c8_retry_wrappers :
    (∀ deadline elapsed w1 w2 : Nat, elapsed + w1 + w2 ≤ deadline →
      Retry.importContactsWithRetry deadline elapsed [.flood w1, .flood w2, .ok]
        = ⟨3, .ok (), elapsed + w1 + w2⟩)
    ∧ (∀ (deadline elapsed : Nat) (m : String) (rest : List Retry.TgResult),
      Retry.importContactsWithRetry deadline elapsed (.err m :: rest)
        = ⟨1, .error m, elapsed⟩)
    ∧ (∀ (deadline elapsed w : Nat) (rest : List Retry.TgResult),
      deadline < elapsed + w →
      Retry.importContactsWithRetry deadline elapsed (.flood w :: rest)
        = ⟨1, .error "context deadline exceeded", elapsed⟩)
    ∧ (∀ (deadline elapsed w1 w2 : Nat) (username : String)
        (resolveRes : Except String Unit), elapsed + w1 + w2 ≤ deadline →
      Retry.sendMessage deadline elapsed username resolveRes [.flood w1, .flood w2, .ok]
        = ⟨3, .ok (), elapsed + w1 + w2⟩)
    ∧ (∀ (deadline elapsed : Nat) (m username : String)
        (resolveRes : Except String Unit) (rest : List Retry.TgResult),
      Retry.strContains m "PEER_ID_INVALID" = false →
      Retry.sendMessage deadline elapsed username resolveRes (.err m :: rest)
        = ⟨1, .error m, elapsed⟩)
    ∧ (∀ (deadline elapsed w : Nat) (username : String)
        (resolveRes : Except String Unit) (rest : List Retry.TgResult),
      deadline < elapsed + w →
      Retry.sendMessage deadline elapsed username resolveRes (.flood w :: rest)
        = ⟨1, .error "context deadline exceeded", elapsed⟩)
    ∧ (∀ (deadline elapsed : Nat) (m username re : String) (rest : List Retry.TgResult),
      Retry.strContains m "PEER_ID_INVALID" = true → username ≠ "" →
      Retry.sendMessage deadline elapsed username (.error re) (.err m :: rest)
        = ⟨1, .error ("peer invalid and failed to resolve username: " ++ re), elapsed⟩)
    ∧ (∀ (deadline elapsed : Nat) (m username : String) (rest : List Retry.TgResult),
      Retry.strContains m "PEER_ID_INVALID" = true → username ≠ "" →
      Retry.sendMessage deadline elapsed username (.ok ()) (.err m :: rest)
        = ⟨(Retry.sendMessage deadline elapsed "" (.ok ()) rest).attempts + 1,
           (Retry.sendMessage deadline elapsed "" (.ok ()) rest).result,
           (Retry.sendMessage deadline elapsed "" (.ok ()) rest).elapsed⟩)
    ∧ (∀ (deadline elapsed : Nat) (m : String) (resolveRes : Except String Unit)
        (rest : List Retry.TgResult),
      Retry.sendMessage deadline elapsed "" resolveRes (.err m :: rest)
        = ⟨1, .error m, elapsed⟩) := by
  have hfw : Retry.strContains "rpc error code 420: FLOOD_WAIT" "PEER_ID_INVALID"
      = false := by decide
  refine ⟨?_, ?_, ?_, ?_, ?_, ?_, ?_, ?_, ?_⟩
  · intro deadline elapsed w1 w2 h
    have h1 : elapsed + w1 ≤ deadline := le_trans (Nat.le_add_right _ _) h
    simp only [Retry.importContactsWithRetry, Retry.FloodWait, if_pos h1, if_pos h]
  · intro deadline elapsed m rest
    rfl
  · intro deadline elapsed w rest h
    have h1 : ¬elapsed + w ≤ deadline := by omega
    simp only [Retry.importContactsWithRetry, Retry.FloodWait, if_neg h1]
  · intro deadline elapsed w1 w2 username resolveRes h
    have h1 : elapsed + w1 ≤ deadline := le_trans (Nat.le_add_right _ _) h
    simp only [Retry.sendMessage, Retry.TgResult.errMsg, hfw, Bool.false_and,
      Bool.false_eq_true, if_false, Retry.FloodWait, if_pos h1, if_pos h]
  · intro deadline elapsed m username resolveRes rest hm
    simp only [Retry.sendMessage, Retry.TgResult.errMsg, hm, Bool.false_and,
      Bool.false_eq_true, if_false, Retry.FloodWait]
  · intro deadline elapsed w username resolveRes rest h
    have h1 : ¬elapsed + w ≤ deadline := by omega
    simp only [Retry.sendMessage, Retry.TgResult.errMsg, hfw, Bool.false_and,
      Bool.false_eq_true, if_false, Retry.FloodWait, if_neg h1]
  · intro deadline elapsed m username re rest hm hu
    have hu' : (username == "") = false := by
      simpa using hu
    simp only [Retry.sendMessage, Retry.TgResult.errMsg, hm, hu', Bool.not_false,
      Bool.and_true, if_true]
  · intro deadline elapsed m username rest hm hu
    have hu' : (username == "") = false := by
      simpa using hu
    simp only [Retry.sendMessage, Retry.TgResult.errMsg, hm, hu', Bool.not_false,
      Bool.and_true, if_true]
  · intro deadline elapsed m resolveRes rest
    simp only [Retry.sendMessage, Retry.TgResult.errMsg, beq_self_eq_true,
      Bool.not_true, Bool.and_false, Bool.false_eq_true, if_false, Retry.FloodWait]

/-- Witness for C8 at concrete waits, budgets and error strings. -/
theorem c8_witness :
    Retry.importContactsWithRetry 100 0 [.flood 3, .flood 4, .ok] = ⟨3, .ok (), 7⟩
    ∧ Retry.importContactsWithRetry 100 0 [.err "AUTH_KEY_UNREGISTERED"]
        = ⟨1, .error "AUTH_KEY_UNREGISTERED", 0⟩
    ∧ Retry.importContactsWithRetry 5 0 [.flood 9, .ok]
        = ⟨1, .error "context deadline exceeded", 0⟩
    ∧ Retry.sendMessage 100 0 "u" (.ok ()) [.flood 3, .flood 4, .ok] = ⟨3, .ok (), 7⟩
    ∧ Retry.sendMessage 100 0 "u" (.error "x") [.err "PEER_ID_INVALID"]
        = ⟨1, .error "peer invalid and failed to resolve username: x", 0⟩
    ∧ Retry.sendMessage 100 0 "" (.error "x") [.err "PEER_ID_INVALID"]
        = ⟨1, .error "PEER_ID_INVALID", 0⟩ :=
  ⟨c8_retry_wrappers.1 100 0 3 4 (by decide),
   c8_retry_wrappers.2.1 100 0 "AUTH_KEY_UNREGISTERED" [],
   c8_retry_wrappers.2.2.1 5 0 9 [.ok] (by decide),
   c8_retry_wrappers.2.2.2.1 100 0 3 4 "u" (.ok ()) (by decide),
   c8_retry_wrappers.2.2.2.2.2.2.1 100 0 "PEER_ID_INVALID" "u" "x" []
     (by decide) (by decide),
   c8_retry_wrappers.2.2.2.2.2.2.2.2 100 0 "PEER_ID_INVALID" (.error "x") []⟩

/-! ### C5 — duplicate targets in one send batch -/

theorem beq_swap_int (a b : Int) : (a == b) = decide (b = a) := by
  cases hab : a == b with
  | true =>
    have h := eq_of_beq hab
    subst h
    simp
  | false =>
    have h : ¬a = b := fun he => by rw [he] at hab; simp at hab
    have h' : ¬b = a := fun he => h he.symm
    simp [h']

theorem containsInt_append (l1 l2 : List Int) (x : Int) :
    (l1 ++ l2).contains x = (l1.contains x || l2.contains x) := by
  induction l1 with
  | nil => simp
  | cons a t ih => simp [List.contains_cons, ih, Bool.or_assoc]

theorem processContact_results (t : Nat → Except String String) (s : Nat → Option String)
    (i : Nat) (c : Contacts.Contact) (st : Messages.SendLoopState) :
    (Messages.processContact t s i c st).results
      = st.results ++ [if st.sentIDs.contains c.telegramID
          then Messages.dupResult c else Messages.freshResult t s i c] := by
  by_cases hd : c.telegramID ∈ st.sentIDs
  · have hd' : st.sentIDs.contains c.telegramID = true := by simpa using hd
    simp [Messages.processContact, hd', hd]
  · have hd' : st.sentIDs.contains c.telegramID = false := by simpa using hd
    cases htm : t i with
    | error e => simp [Messages.processContact, hd', hd, htm]
    | ok v =>
      cases hsd : s i with
      | none => simp [Messages.processContact, hd', hd, htm, hsd]
      | some e => simp [Messages.processContact, hd', hd, htm, hsd]

theorem processContact_sentIDs (t : Nat → Except String String) (s : Nat → Option String)
    (i : Nat) (c : Contacts.Contact) (st : Messages.SendLoopState) (x : Int) :
    (Messages.processContact t s i c st).sentIDs.contains x
      = (st.sentIDs.contains x || c.telegramID == x) := by
  by_cases hd : c.telegramID ∈ st.sentIDs
  · have hd' : st.sentIDs.contains c.telegramID = true := by simpa using hd
    have hsame : (Messages.processContact t s i c st).sentIDs = st.sentIDs := by
      simp [Messages.processContact, hd', hd]
    rw [hsame]
    cases hcx : (c.telegramID == x) with
    | false => simp
    | true =>
      have hx : c.telegramID = x := eq_of_beq hcx
      rw [← hx, hd']
      simp
  · have hd' : st.sentIDs.contains c.telegramID = false := by simpa using hd
    have happ : (Messages.processContact t s i c st).sentIDs
        = st.sentIDs ++ [c.telegramID] := by
      cases htm : t i with
      | error e => simp [Messages.processContact, hd', hd, htm]
      | ok v =>
        cases hsd : s i with
        | none => simp [Messages.processContact, hd', hd, htm, hsd]
        | some e => simp [Messages.processContact, hd', hd, htm, hsd]
    rw [happ, containsInt_append]
    simp [List.contains_cons, beq_swap_int]

theorem processContact_sendLog (t : Nat → Except String String) (s : Nat → Option String)
    (i : Nat) (c : Contacts.Contact) (st : Messages.SendLoopState) :
    (Messages.processContact t s i c st).sendLog
      = st.sendLog ++ (if st.sentIDs.contains c.telegramID then []
          else match t i with | .ok _ => [i] | .error _ => []) := by
  by_cases hd : c.telegramID ∈ st.sentIDs
  · have hd' : st.sentIDs.contains c.telegramID = true := by simpa using hd
    simp [Messages.processContact, hd', hd]
  · have hd' : st.sentIDs.contains c.telegramID = false := by simpa using hd
    cases htm : t i with
    | error e => simp [Messages.processContact, hd', hd, htm]
    | ok v =>
      cases hsd : s i with
      | none => simp [Messages.processContact, hd', hd, htm, hsd]
      | some e => simp [Messages.processContact, hd', hd, htm, hsd]

theorem runFrom_results_preserved (t : Nat → Except String String)
    (s : Nat → Option String) :
    ∀ (cs : List Contacts.Contact) (i : Nat) (st : Messages.SendLoopState) (k : Nat),
    k < st.results.length →
    ((Messages.runSendLoopFrom t s i cs st).results)[k]? = st.results[k]? := by
  intro cs
  induction cs with
  | nil => intro i st k _; rfl
  | cons c rest ih =>
    intro i st k hk
    have hlen : (Messages.processContact t s i c st).results.length
        = st.results.length + 1 := by
      rw [processContact_results]
      simp
    rw [Messages.runSendLoopFrom, ih (i + 1) _ k (by rw [hlen]; omega),
      processContact_results, List.getElem?_append, if_pos hk]

theorem runFrom_sendLog_low (t : Nat → Except String String)
    (s : Nat → Option String) :
    ∀ (cs : List Contacts.Contact) (i : Nat) (st : Messages.SendLoopState) (x : Nat),
    x < i →
    (x ∈ (Messages.runSendLoopFrom t s i cs st).sendLog ↔ x ∈ st.sendLog) := by
  intro cs
  induction cs with
  | nil => intro i st x _; rfl
  | cons c rest ih =>
    intro i st x hx
    rw [Messages.runSendLoopFrom, ih (i + 1) _ x (by omega), processContact_sendLog]
    rw [List.mem_append]
    constructor
    · rintro (h | h)
      · exact h
      · exfalso
        revert h
        split
        · simp
        · split
          · intro h
            rw [List.mem_singleton] at h
            omega
          · simp
    · exact Or.inl

theorem runFrom_char (t : Nat → Except String String) (s : Nat → Option String) :
    ∀ (cs : List Contacts.Contact) (i : Nat) (st : Messages.SendLoopState)
      (j : Nat) (cj : Contacts.Contact),
    cs[j]? = some cj →
    st.results.length = i →
    (∀ x ∈ st.sendLog, x < i) →
    ((Messages.runSendLoopFrom t s i cs st).results[i + j]?
        = some (if (st.sentIDs.contains cj.telegramID
              || Messages.seenIn cs j cj.telegramID)
            then Messages.dupResult cj else Messages.freshResult t s (i + j) cj))
    ∧ ((i + j) ∈ (Messages.runSendLoopFrom t s i cs st).sendLog ↔
        (st.sentIDs.contains cj.telegramID || Messages.seenIn cs j cj.telegramID) = false
          ∧ ∃ v, t (i + j) = Except.ok v) := by
  intro cs
  induction cs with
  | nil => intro i st j cj hj; cases hj
  | cons c rest ih =>
    intro i st j cj hj hres hlog
    have hlen : (Messages.processContact t s i c st).results.length
        = st.results.length + 1 := by
      rw [processContact_results]; simp
    have hlog' : ∀ x ∈ (Messages.processContact t s i c st).sendLog, x < i + 1 := by
      intro x hx
      rw [processContact_sendLog, List.mem_append] at hx
      rcases hx with hx | hx
      · have := hlog x hx; omega
      · revert hx
        split
        · simp
        · split
          · intro hx
            rw [List.mem_singleton] at hx
            omega
          · simp
    cases j with
    | zero =>
      have hc : c = cj := by
        simpa using hj
      subst hc
      have hseen : Messages.seenIn (c :: rest) 0 c.telegramID = false := rfl
      rw [hseen, Bool.or_false, Nat.add_zero]
      constructor
      · rw [Messages.runSendLoopFrom,
          runFrom_results_preserved t s rest (i + 1) _ i (by omega),
          processContact_results]
        have hi : i = st.results.length := hres.symm
        subst hi
        rw [List.getElem?_concat_length]
      · rw [Messages.runSendLoopFrom,
          runFrom_sendLog_low t s rest (i + 1) _ i (by omega),
          processContact_sendLog, List.mem_append]
        have hnotold : i ∉ st.sendLog := fun hmem => absurd (hlog i hmem) (by omega)
        by_cases hd : st.sentIDs.contains c.telegramID
        · simp only [hd, if_true]
          constructor
          · rintro (h | h)
            · exact absurd h hnotold
            · cases h
          · rintro ⟨hfalse, _⟩
            cases hfalse
        · simp only [hd, Bool.false_eq_true, if_false]
          cases htm : t i with
          | error e =>
            constructor
            · rintro (h | h)
              · exact absurd h hnotold
              · cases h
            · rintro ⟨_, v, hv⟩
              cases hv
          | ok v =>
            constructor
            · intro _
              exact ⟨by simp [hd], v, rfl⟩
            · intro _
              exact Or.inr (List.mem_singleton.mpr rfl)
    | succ j' =>
      have hj' : rest[j']? = some cj := by
        simpa using hj
      have hadd : i + (j' + 1) = (i + 1) + j' := by omega
      have hcond : ((Messages.processContact t s i c st).sentIDs.contains cj.telegramID
            || Messages.seenIn rest j' cj.telegramID)
          = (st.sentIDs.contains cj.telegramID
            || Messages.seenIn (c :: rest) (j' + 1) cj.telegramID) := by
        rw [processContact_sentIDs]
        have hseq : Messages.seenIn (c :: rest) (j' + 1) cj.telegramID
            = (c.telegramID == cj.telegramID || Messages.seenIn rest j' cj.telegramID) :=
          rfl
        rw [hseq, Bool.or_assoc]
      obtain ⟨ihres, ihlog⟩ := ih (i + 1) (Messages.processContact t s i c st) j' cj hj'
        (by rw [hlen, hres]) hlog'
      constructor
      · rw [Messages.runSendLoopFrom, hadd, ihres, hcond]
      · rw [Messages.runSendLoopFrom, hadd, ihlog, hcond]

theorem seenIn_of_earlier :
    ∀ (cs : List Contacts.Contact) (i j : Nat) (ci cj : Contacts.Contact),
    i < j → cs[i]? = some ci → cs[j]? = some cj →
    ci.telegramID = cj.telegramID →
    Messages.seenIn cs j cj.telegramID = true := by
  intro cs
  induction cs with
  | nil => intro i j ci cj _ hi; cases hi
  | cons c rest ih =>
    intro i j ci cj hij hi hj heq
    cases j with
    | zero => omega
    | succ j' =>
      have hseq : Messages.seenIn (c :: rest) (j' + 1) cj.telegramID
          = (c.telegramID == cj.telegramID || Messages.seenIn rest j' cj.telegramID) :=
        rfl
      rw [hseq]
      cases i with
      | zero =>
        have hc : c = ci := by simpa using hi
        subst hc
        rw [heq]
        simp
      | succ i' =>
        have hi' : rest[i']? = some ci := by simpa using hi
        have hj' : rest[j']? = some cj := by simpa using hj
        rw [ih i' j' ci cj (by omega) hi' hj' heq]
        simp

/-- C5: in `SendToContactsWithProgress`, when two entries of the request
resolve to the same Telegram ID, the later occurrence is recorded as an
already-successful duplicate (success flag true, error text
"duplicate, skipped") and no send is attempted for it — the message goes out
only at the first occurrence. -/
theorem c5_duplicates_processed_once
    (store : List (String × Contacts.Contact)) (contactIDs : List String)
    (messageText : String) (t : Nat → Except String String) (s : Nat → Option String)
    (i j : Nat) (ci cj : Contacts.Contact)
    (hmsg : messageText ≠ "") (hids : contactIDs ≠ [])
    (hi : (Messages.resolveContacts store contactIDs)[i]? = some ci)
    (hj : (Messages.resolveContacts store contactIDs)[j]? = some cj)
    (hij : i < j) (heq : ci.telegramID = cj.telegramID) :
    ∃ res log,
      Messages.SendToContactsWithProgress store contactIDs messageText t s
        = .ok (res, log)
      ∧ res.results[j]? = some (Messages.dupResult cj)
      ∧ (Messages.dupResult cj).success = true
      ∧ (Messages.dupResult cj).error = "duplicate, skipped"
      ∧ j ∉ log := by
  have hcs : Messages.resolveContacts store contactIDs ≠ [] := by
    intro hnil
    rw [hnil] at hj
    cases hj
  have hseen : Messages.seenIn (Messages.resolveContacts store contactIDs) j
      cj.telegramID = true :=
    seenIn_of_earlier _ i j ci cj hij hi hj heq
  obtain ⟨hres, hlog⟩ := runFrom_char t s (Messages.resolveContacts store contactIDs)
    0 Messages.initLoopState j cj hj rfl (by intro x hx; cases hx)
  rw [Nat.zero_add] at hres hlog
  have hcond : (Messages.initLoopState.sentIDs.contains cj.telegramID
      || Messages.seenIn (Messages.resolveContacts store contactIDs) j cj.telegramID)
      = true := by
    rw [hseen]
    simp
  rw [hcond] at hres hlog
  rw [if_pos rfl] at hres
  have hmain : Messages.SendToContactsWithProgress store contactIDs messageText t s
      = .ok ({ total := (Messages.resolveContacts store contactIDs).length,
               successful := (Messages.runSendLoop t s
                 (Messages.resolveContacts store contactIDs)).successful,
               failed := (Messages.runSendLoop t s
                 (Messages.resolveContacts store contactIDs)).failed,
               results := (Messages.runSendLoop t s
                 (Messages.resolveContacts store contactIDs)).results },
             (Messages.runSendLoop t s
               (Messages.resolveContacts store contactIDs)).sendLog) := by
    unfold Messages.SendToContactsWithProgress
    rw [if_neg hids, if_neg hmsg, if_neg hcs]
  refine ⟨_, _, hmain, ?_, rfl, rfl, ?_⟩
  · show (Messages.runSendLoop t s (Messages.resolveContacts store contactIDs)).results[j]?
        = some (Messages.dupResult cj)
    unfold Messages.runSendLoop
    exact hres
  · show j ∉ (Messages.runSendLoop t s (Messages.resolveContacts store contactIDs)).sendLog
    unfold Messages.runSendLoop
    intro hmem
    obtain ⟨hfalse, _⟩ := hlog.mp hmem
    cases hfalse

/-- Witness for C5: two request entries resolving to the same Telegram ID;
the second is marked "duplicate, skipped" with success `true` and no second
send happens. -/
theorem c5_witness :
    ∃ res log,
      Messages.SendToContactsWithProgress
        [("c1", { id := "c1", phone := "+1", firstName := "A", lastName := "B",
                  username := "u1", telegramID := 7, accessHash := 1, isValid := true }),
         ("c2", { id := "c2", phone := "+2", firstName := "C", lastName := "D",
                  username := "u2", telegramID := 7, accessHash := 2, isValid := true })]
        ["c1", "c2"] "hi" (fun _ => .ok "hi") (fun _ => none)
        = .ok (res, log)
      ∧ res.results[1]? = some (Messages.dupResult
          { id := "c2", phone := "+2", firstName := "C", lastName := "D",
            username := "u2", telegramID := 7, accessHash := 2, isValid := true })
      ∧ (Messages.dupResult
          { id := "c2", phone := "+2", firstName := "C", lastName := "D",
            username := "u2", telegramID := 7, accessHash := 2, isValid := true }).success
          = true
      ∧ (Messages.dupResult
          { id := "c2", phone := "+2", firstName := "C", lastName := "D",
            username := "u2", telegramID := 7, accessHash := 2, isValid := true }).error
          = "duplicate, skipped"
      ∧ 1 ∉ log :=
  c5_duplicates_processed_once
    [("c1", { id := "c1", phone := "+1", firstName := "A", lastName := "B",
              username := "u1", telegramID := 7, accessHash := 1, isValid := true }),
     ("c2", { id := "c2", phone := "+2", firstName := "C", lastName := "D",
              username := "u2", telegramID := 7, accessHash := 2, isValid := true })]
    ["c1", "c2"] "hi" (fun _ => .ok "hi") (fun _ => none) 0 1
    { id := "c1", phone := "+1", firstName := "A", lastName := "B",
      username := "u1", telegramID := 7, accessHash := 1, isValid := true }
    { id := "c2", phone := "+2", firstName := "C", lastName := "D",
      username := "u2", telegramID := 7, accessHash := 2, isValid := true }
    (by decide) (by decide) (by decide) (by decide) (by decide) (by decide)

end Spec2Proof
